import Mathlib

/-!
Shallow embedding of the MLM referral backend (src/main.py).

Modelling conventions:
* A MongoDB collection is a `List` of documents, in insertion order.
  `find_one(filter)` is `List.find?`; `update_one(filter, ..., upsert=True)`
  replaces the first matching document or appends a fresh one;
  `insert_one` appends.
* A document written by this service always carries every modelled key, so a
  field of type `Option String` with value `none` models a key that is present
  with a `null` value (pydantic serialises an omitted optional field as
  `None`, and `$set` writes it as `null`).
* `datetime.utcnow()` is an explicit `now : Nat` parameter; the random stream
  consumed by `generate_unique_referral_code` is an explicit list of candidate
  codes, and the unbounded retry loop surfaces as an `Option` result (`none`
  models divergence when every candidate collides).
* `amount` is a float in the source; it is only stored and echoed, never
  computed with, so it is modelled as an `Int`.
-/

/-- HTTPException from FastAPI: a status code and a detail message. -/
structure HTTPException where
  status_code : Nat
  detail : String
deriving Repr, DecidableEq

/-- Pydantic model BankDetails (src/main.py lines 44-50). -/
structure BankDetails where
  bank_name : Option String
  account_number : Option String
  ifsc_code : Option String
  branch_name : Option String
deriving Repr, DecidableEq

/-- Pydantic model UserData, the POST /user_data payload (src/main.py lines 54-68). -/
structure UserData where
  firebase_uid : String
  name : Option String
  email : Option String
  reference_code : Option String
  sex : Option String
  state : Option String
  district : Option String
  pin_code : Option String
  bank_details : Option BankDetails
deriving Repr, DecidableEq

/-- A document of the `user_data` collection as written by the service:
the `$set` fields (the pydantic payload) plus the `$setOnInsert` fields. -/
structure UserDoc where
  firebase_uid : String
  name : Option String
  email : Option String
  reference_code : Option String
  sex : Option String
  state : Option String
  district : Option String
  pin_code : Option String
  bank_details : Option BankDetails
  referral_code : Option String
  payment_status : Bool
  referred_by : Option String
  reference_code_used : Option String
deriving Repr, DecidableEq

/-- A document of the `user_payments` collection (src/main.py lines 208-212).
Transactions are never constructed or inspected by this service; their
elements are modelled as opaque strings. -/
structure PaymentDoc where
  firebase_uid : String
  transactions : List String
  last_updated : Nat
deriving Repr, DecidableEq

/-- A document of the `admin_withdrawal_requests` collection
(src/main.py lines 230-235). -/
structure WithdrawalDoc where
  firebase_uid : String
  name : Option String
  amount : Int
  requested_at : Nat
deriving Repr, DecidableEq

/-- Pydantic model WithdrawalRequest (src/main.py lines 77-79). -/
structure WithdrawalRequest where
  firebase_uid : String
  amount : Int
deriving Repr, DecidableEq

/-- The database state: the three collections this service writes to.
(`admin_payments` is opened but never used by any endpoint.) -/
structure DB where
  user_data : List UserDoc
  user_payments : List PaymentDoc
  withdrawal_requests : List WithdrawalDoc
deriving Repr, DecidableEq

/-- The empty database. -/
def DB.empty : DB := ⟨[], [], []⟩

/-- `generate_unique_referral_code` (src/main.py lines 71-75): walk the random
stream of candidate codes and return the first one that no document of the
collection carries as its `referral_code`; `none` models the unbounded loop
never finding a fresh code. -/
def generate_unique_referral_code (docs : List UserDoc) : List String → Option String
  | [] => none
  | c :: rest =>
      if (docs.find? (fun d => d.referral_code == some c)).isSome then
        generate_unique_referral_code docs rest
      else
        some c

/-- The effect of `$set: update_fields` on an existing document: every pydantic
payload field is overwritten (`data.dict()` serialises omitted optionals as
`None`), while the `$setOnInsert` fields are untouched. -/
def applySet (d : UserDoc) (data : UserData) : UserDoc :=
  { d with
    firebase_uid := data.firebase_uid
    name := data.name
    email := data.email
    reference_code := data.reference_code
    sex := data.sex
    state := data.state
    district := data.district
    pin_code := data.pin_code
    bank_details := data.bank_details }

/-- The document inserted by the upsert for a new user: the filter and `$set`
fields plus the `$setOnInsert` fields (src/main.py lines 125-137). -/
def insertedDoc (data : UserData) (code : String) (referred_by : Option String) : UserDoc :=
  { firebase_uid := data.firebase_uid
    name := data.name
    email := data.email
    reference_code := data.reference_code
    sex := data.sex
    state := data.state
    district := data.district
    pin_code := data.pin_code
    bank_details := data.bank_details
    referral_code := some code
    payment_status := false
    referred_by := referred_by
    reference_code_used := data.reference_code }

/-- Replace the first element satisfying `p` by its image under `g`
(the effect of `update_one` on a matching collection). -/
def updateFirst (p : α → Bool) (g : α → α) : List α → List α
  | [] => []
  | x :: xs => if p x then g x :: xs else x :: updateFirst p g xs

/-- The JSON body returned by POST /user_data (src/main.py lines 139-144). -/
structure UserResp where
  message : String
  referral_code : Option String
  referred_by : Option String
  reference_code_used : Option String
deriving Repr, DecidableEq

/-- `create_or_update_user`, the POST /user_data handler
(src/main.py lines 94-144).  `codes` is the stream of random candidates; the
outer `Option` is `none` exactly when `generate_unique_referral_code`
diverges.  An `HTTPException` outcome is paired with the unchanged database. -/
def create_or_update_user (db : DB) (data : UserData) (codes : List String) :
    Option (Except HTTPException UserResp × DB) :=
  match db.user_data.find? (fun d => d.firebase_uid == data.firebase_uid) with
  | some existing =>
      -- Existing user: preserve previous values; `$setOnInsert` is a no-op,
      -- `$set` applies the full payload to the matched document.
      some (.ok ⟨"User updated", existing.referral_code, existing.referred_by,
                 existing.reference_code_used⟩,
            { db with user_data := updateFirst
                        (fun d => d.firebase_uid == data.firebase_uid)
                        (fun d => applySet d data) db.user_data })
  | none =>
      match generate_unique_referral_code db.user_data codes with
      | none => none
      | some referral_code =>
          let finish : Option String → Option (Except HTTPException UserResp × DB) :=
            fun referred_by =>
              some (.ok ⟨"User created", some referral_code, referred_by,
                         data.reference_code⟩,
                    { db with user_data := db.user_data ++
                                [insertedDoc data referral_code referred_by] })
          match data.reference_code with
          | some rc =>
              -- Python truthiness: `if reference_code:` is taken only for a
              -- non-empty string.
              if rc != "" then
                match db.user_data.find? (fun d => d.referral_code == some rc) with
                | some referrer => finish referrer.name
                | none => some (.error ⟨400, "Invalid reference code"⟩, db)
              else finish none
          | none => finish none

/-- `get_user`, the GET /user_data/{firebase_uid} handler
(src/main.py lines 148-153).  Read-only: the database is not touched. -/
def get_user (db : DB) (firebase_uid : String) : Except HTTPException UserDoc :=
  match db.user_data.find? (fun d => d.firebase_uid == firebase_uid) with
  | none => .error ⟨404, "User not found"⟩
  | some user => .ok user

/-- The projection `{"_id": 0, "name": 1, "referral_code": 1}` used by the
team queries. -/
structure TeamMember where
  name : Option String
  referral_code : Option String
deriving Repr, DecidableEq

/-- The JSON body returned by GET /team. -/
structure Team where
  level_1 : List TeamMember
  level_2 : List TeamMember
  level_3 : List TeamMember
deriving Repr, DecidableEq

/-- `find_users_by_referral` (src/main.py lines 168-173): all documents whose
`reference_code` is `$in` the given list, under the name/referral_code
projection. -/
def find_users_by_referral (docs : List UserDoc) (ref_codes : List (Option String)) :
    List TeamMember :=
  (docs.filter (fun d => ref_codes.contains d.reference_code)).map
    (fun d => ⟨d.name, d.referral_code⟩)

/-- `get_team`, the GET /team handler (src/main.py lines 156-192).
Read-only.  `if not root_referral_code` is taken when the stored code is
`null` or the empty string. -/
def get_team (db : DB) (firebase_uid : String) : Except HTTPException Team :=
  match db.user_data.find? (fun d => d.firebase_uid == firebase_uid) with
  | none => .error ⟨404, "User not found"⟩
  | some user =>
      match user.referral_code with
      | none => .error ⟨400, "Referral code not found for this user"⟩
      | some root =>
          if root == "" then .error ⟨400, "Referral code not found for this user"⟩
          else
            let level_1 := find_users_by_referral db.user_data [some root]
            let level_2 := find_users_by_referral db.user_data
              (level_1.map (fun u => u.referral_code))
            let level_3 := find_users_by_referral db.user_data
              (level_2.map (fun u => u.referral_code))
            .ok ⟨level_1, level_2, level_3⟩

/-- `get_or_create_payment`, the GET /payments handler
(src/main.py lines 195-216). -/
def get_or_create_payment (db : DB) (firebase_uid : String) (now : Nat) :
    Except HTTPException PaymentDoc × DB :=
  match db.user_payments.find? (fun p => p.firebase_uid == firebase_uid) with
  | some payment_doc => (.ok payment_doc, db)
  | none =>
      match db.user_data.find? (fun d => d.firebase_uid == firebase_uid) with
      | none => (.error ⟨404, "User not found"⟩, db)
      | some _ =>
          let empty_doc : PaymentDoc := ⟨firebase_uid, [], now⟩
          (.ok empty_doc, { db with user_payments := db.user_payments ++ [empty_doc] })

/-- `raise_withdrawal_request`, the POST /withdrawal_request handler
(src/main.py lines 220-239).  Documents written by this service always carry
the `name` key (possibly `null`), so `user.get("name", "Unknown")` reads the
stored value. -/
def raise_withdrawal_request (db : DB) (data : WithdrawalRequest) (now : Nat) :
    Except HTTPException WithdrawalDoc × DB :=
  match db.user_data.find? (fun d => d.firebase_uid == data.firebase_uid) with
  | none => (.error ⟨404, "User not found"⟩, db)
  | some user =>
      let request_doc : WithdrawalDoc := ⟨data.firebase_uid, user.name, data.amount, now⟩
      (.ok request_doc, { db with withdrawal_requests := db.withdrawal_requests ++ [request_doc] })

/-- One state transition of the service: any state-changing endpoint call,
with its nondeterministic inputs (payload, random stream, clock). -/
inductive Step : DB → DB → Prop where
  | user {db db' : DB} (data : UserData) (codes : List String)
      (res : Except HTTPException UserResp) :
      create_or_update_user db data codes = some (res, db') → Step db db'
  | payment {db db' : DB} (uid : String) (now : Nat)
      (res : Except HTTPException PaymentDoc) :
      get_or_create_payment db uid now = (res, db') → Step db db'
  | withdrawal {db db' : DB} (data : WithdrawalRequest) (now : Nat)
      (res : Except HTTPException WithdrawalDoc) :
      raise_withdrawal_request db data now = (res, db') → Step db db'

/-- States reachable from the empty database by endpoint calls
(GET /user_data and GET /team are read-only and induce no transition). -/
inductive Reachable : DB → Prop where
  | init : Reachable DB.empty
  | step {db db' : DB} : Reachable db → Step db db' → Reachable db'

/-- The database state produced by the update branch of the upsert: the first
document matching the uid receives the full `$set` payload. -/
def updatedUserDB (db : DB) (data : UserData) : DB :=
  { db with
    user_data := updateFirst (fun d => d.firebase_uid == data.firebase_uid)
                   (fun d => applySet d data)
                   db.user_data }

/-- Concrete user document used to instantiate theorems with hypotheses. -/
def wUser : UserDoc :=
  ⟨"u1", some "Alice", some "a@b.c", none, none, none, none, none, none,
   some "CODE1", false, none, none⟩

/-- Concrete database holding just `wUser`. -/
def wDB : DB := ⟨[wUser], [], []⟩

/-- Concrete resubmission payload for `wUser`'s uid, omitting the email. -/
def wPayload : UserData := ⟨"u1", some "Alice2", none, none, none, none, none, none, none⟩

/-- Concrete first-registration payload carrying an unknown reference code. -/
def wBadPayload : UserData := ⟨"u9", none, none, some "NOPE", none, none, none, none, none⟩

/-- Payment document owned by a uid that has no user document. -/
def ghostPayment : PaymentDoc := ⟨"ghost", [], 3⟩

/-- Database exhibiting a payment document without a matching user. -/
def ghostDB : DB := ⟨[], [ghostPayment], []⟩

/-- Concrete registration payload whose insertion yields `wUser`. -/
def wregPayload : UserData :=
  ⟨"u1", some "Alice", some "a@b.c", none, none, none, none, none, none⟩

/-- Second-level member of the concrete referral chain: refers to "CODE1". -/
def tUser2 : UserDoc :=
  ⟨"u2", some "Bob", none, some "CODE1", none, none, none, none, none,
   some "CODE2", false, some "Alice", some "CODE1"⟩

/-- Third-level member of the concrete referral chain: refers to "CODE2". -/
def tUser3 : UserDoc :=
  ⟨"u3", some "Carol", none, some "CODE2", none, none, none, none, none,
   some "CODE3", false, some "Bob", some "CODE2"⟩

/-- Fourth member of the concrete referral chain: refers to "CODE3". -/
def tUser4 : UserDoc :=
  ⟨"u4", some "Dave", none, some "CODE3", none, none, none, none, none,
   some "CODE4", false, some "Carol", some "CODE3"⟩

/-- Concrete database holding a three-deep referral chain under `wUser`. -/
def teamDB : DB := ⟨[wUser, tUser2, tUser3, tUser4], [], []⟩

/-! ## Helper lemmas -/

/-- A code returned by `generate_unique_referral_code` collides with no
document of the collection. -/
theorem generate_fresh {docs : List UserDoc} {codes : List String} {c : String}
    (h : generate_unique_referral_code docs codes = some c) :
    ∀ d ∈ docs, d.referral_code ≠ some c := by
  induction codes with
  | nil => simp [generate_unique_referral_code] at h
  | cons x rest ih =>
      rw [generate_unique_referral_code] at h
      split at h
      · exact ih h
      · rename_i hfind
        obtain rfl : x = c := by simpa using h
        intro d hd
        have := List.find?_eq_none.mp (Option.not_isSome_iff_eq_none.mp hfind) d hd
        simpa using this

/-- `updateFirst` with a map that preserves a projection preserves the
projected list. -/
theorem map_updateFirst_of_preserve {p : α → Bool} {g : α → α} {f : α → β}
    (hg : ∀ x, f (g x) = f x) (l : List α) :
    (updateFirst p g l).map f = l.map f := by
  induction l with
  | nil => rfl
  | cons x xs ih =>
      rw [updateFirst]
      split
      · simp [hg]
      · simp [ih]

/-- If `find?` locates `a` and the update keeps the predicate true on `g a`,
then `find?` on the updated list locates `g a`. -/
theorem find?_updateFirst_self {p : α → Bool} {g : α → α} {l : List α} {a : α}
    (h : l.find? p = some a) (hg : p (g a) = true) :
    (updateFirst p g l).find? p = some (g a) := by
  induction l with
  | nil => simp at h
  | cons x xs ih =>
      rw [updateFirst]
      by_cases hx : p x
      · rw [List.find?_cons_of_pos _ hx] at h
        obtain rfl : x = a := by simpa using h
        rw [if_pos hx, List.find?_cons_of_pos _ hg]
      · rw [List.find?_cons_of_neg _ hx] at h
        rw [if_neg hx, List.find?_cons_of_neg _ hx]
        exact ih h

/-- On the update branch the handler yields exactly the updated database. -/
theorem create_or_update_user_update_branch {db : DB} {data : UserData}
    (codes : List String) {old : UserDoc}
    (hold : db.user_data.find? (fun d => d.firebase_uid == data.firebase_uid) = some old) :
    create_or_update_user db data codes =
      some (.ok ⟨"User updated", old.referral_code, old.referred_by,
                 old.reference_code_used⟩, updatedUserDB db data) := by
  rw [create_or_update_user, hold]
  rfl

/-! ## Claim theorems -/

/-- C9: GET /user_data/{firebase_uid} returns the stored user document when
one exists and raises HTTP 404 when none exists; the handler performs no
write (it is embedded as a pure function of the database state). -/
theorem get_user_spec (db : DB) (uid : String) :
    (∀ u, db.user_data.find? (fun d => d.firebase_uid == uid) = some u →
        get_user db uid = .ok u) ∧
    (db.user_data.find? (fun d => d.firebase_uid == uid) = none →
        get_user db uid = .error ⟨404, "User not found"⟩) := by
  constructor
  · intro u hu; rw [get_user, hu]
  · intro h; rw [get_user, h]

/-- C9 witness: on a concrete one-user database, the hypotheses hold and the
stored document is returned. -/
theorem get_user_spec_witness :
    (wDB.user_data.find? (fun d => d.firebase_uid == "u1") = some wUser ∧
      get_user wDB "u1" = .ok wUser) ∧
    (wDB.user_data.find? (fun d => d.firebase_uid == "u2") = none ∧
      get_user wDB "u2" = .error ⟨404, "User not found"⟩) :=
  ⟨⟨rfl, (get_user_spec wDB "u1").1 wUser rfl⟩,
   ⟨rfl, (get_user_spec wDB "u2").2 rfl⟩⟩

/-- C7: GET /payments returns the stored payment document when one exists;
otherwise, when the user exists, it appends and returns a fresh payment
document with an empty transaction list and the current timestamp; when
neither exists it raises HTTP 404 and writes nothing. -/
theorem get_or_create_payment_spec (db : DB) (uid : String) (now : Nat) :
    (∀ p, db.user_payments.find? (fun q => q.firebase_uid == uid) = some p →
        get_or_create_payment db uid now = (.ok p, db)) ∧
    (db.user_payments.find? (fun q => q.firebase_uid == uid) = none →
      (∃ u, db.user_data.find? (fun d => d.firebase_uid == uid) = some u) →
        get_or_create_payment db uid now =
          (.ok ⟨uid, [], now⟩,
           { db with user_payments := db.user_payments ++ [⟨uid, [], now⟩] })) ∧
    (db.user_payments.find? (fun q => q.firebase_uid == uid) = none →
      db.user_data.find? (fun d => d.firebase_uid == uid) = none →
        get_or_create_payment db uid now = (.error ⟨404, "User not found"⟩, db)) := by
  refine ⟨fun p hp => ?_, fun hp ⟨u, hu⟩ => ?_, fun hp hu => ?_⟩
  · rw [get_or_create_payment, hp]
  · rw [get_or_create_payment, hp, hu]
  · rw [get_or_create_payment, hp, hu]

/-- C7 witness: on the concrete one-user database with no payment document,
the lazy-creation branch fires. -/
theorem get_or_create_payment_spec_witness :
    wDB.user_payments.find? (fun q => q.firebase_uid == "u1") = none ∧
    (∃ u, wDB.user_data.find? (fun d => d.firebase_uid == "u1") = some u) ∧
    get_or_create_payment wDB "u1" 5 =
      (.ok ⟨"u1", [], 5⟩,
       { wDB with user_payments := wDB.user_payments ++ [⟨"u1", [], 5⟩] }) :=
  ⟨rfl, ⟨wUser, rfl⟩,
   (get_or_create_payment_spec wDB "u1" 5).2.1 rfl ⟨wUser, rfl⟩⟩

/-- C8: POST /withdrawal_request raises HTTP 404 and writes nothing when the
user does not exist; when the user exists it appends exactly one request
document (uid, name snapshot, amount, timestamp), leaving every existing
withdrawal-request document in place. -/
theorem raise_withdrawal_request_spec (db : DB) (data : WithdrawalRequest) (now : Nat) :
    (db.user_data.find? (fun d => d.firebase_uid == data.firebase_uid) = none →
        raise_withdrawal_request db data now = (.error ⟨404, "User not found"⟩, db)) ∧
    (∀ u, db.user_data.find? (fun d => d.firebase_uid == data.firebase_uid) = some u →
        raise_withdrawal_request db data now =
          (.ok ⟨data.firebase_uid, u.name, data.amount, now⟩,
           { db with withdrawal_requests := db.withdrawal_requests ++
               [⟨data.firebase_uid, u.name, data.amount, now⟩] })) := by
  refine ⟨fun h => ?_, fun u hu => ?_⟩
  · rw [raise_withdrawal_request, h]
  · rw [raise_withdrawal_request, hu]

/-- C8 witness: the append branch on the concrete one-user database, and the
404 branch for an unknown uid. -/
theorem raise_withdrawal_request_spec_witness :
    (wDB.user_data.find? (fun d => d.firebase_uid == "u1") = some wUser ∧
      raise_withdrawal_request wDB ⟨"u1", 250⟩ 7 =
        (.ok ⟨"u1", some "Alice", 250, 7⟩,
         { wDB with withdrawal_requests := wDB.withdrawal_requests ++
             [⟨"u1", some "Alice", 250, 7⟩] })) ∧
    (wDB.user_data.find? (fun d => d.firebase_uid == "nobody") = none ∧
      raise_withdrawal_request wDB ⟨"nobody", 1⟩ 7 =
        (.error ⟨404, "User not found"⟩, wDB)) :=
  ⟨⟨rfl, (raise_withdrawal_request_spec wDB ⟨"u1", 250⟩ 7).2 wUser rfl⟩,
   ⟨rfl, (raise_withdrawal_request_spec wDB ⟨"nobody", 1⟩ 7).1 rfl⟩⟩

/-- C10: GET /payments does not check that the user exists when a payment
document is already present: on a state holding a payment document for a uid
with no user document, the stored document is returned successfully instead
of HTTP 404. -/
theorem payments_returned_without_user_check :
    ghostDB.user_data.find? (fun d => d.firebase_uid == "ghost") = none ∧
    get_or_create_payment ghostDB "ghost" 9 = (.ok ghostPayment, ghostDB) :=
  ⟨rfl, rfl⟩

/-- C2: re-submitting a payload for an existing firebase_uid leaves the
stored referral_code unchanged: `referral_code` appears only under
`$setOnInsert`, which is a no-op on an update. -/
theorem referral_code_immutable_on_update (db : DB) (data : UserData)
    (codes : List String) (old : UserDoc)
    (hold : db.user_data.find? (fun d => d.firebase_uid == data.firebase_uid) = some old) :
    ∃ r db', create_or_update_user db data codes = some (.ok r, db') ∧
      ∃ d', db'.user_data.find? (fun d => d.firebase_uid == data.firebase_uid) = some d' ∧
        d'.referral_code = old.referral_code := by
  refine ⟨_, updatedUserDB db data, create_or_update_user_update_branch codes hold,
    applySet old data, ?_, rfl⟩
  exact find?_updateFirst_self hold (by simp [applySet])

/-- C2 witness: resubmitting uid "u1" on the concrete database keeps its
stored referral_code. -/
theorem referral_code_immutable_on_update_witness :
    wDB.user_data.find? (fun d => d.firebase_uid == "u1") = some wUser ∧
    ∃ r db', create_or_update_user wDB wPayload [] = some (.ok r, db') ∧
      ∃ d', db'.user_data.find? (fun d => d.firebase_uid == "u1") = some d' ∧
        d'.referral_code = wUser.referral_code :=
  ⟨rfl, referral_code_immutable_on_update wDB wPayload [] wUser rfl⟩

/-- C3 counterexample: the update path does not leave omitted fields
unchanged.  `data.dict()` serialises an omitted email as `None`, and `$set`
overwrites the previously stored email with it: on the concrete database the
stored email "a@b.c" becomes `null` after a resubmission that omits it. -/
theorem update_overwrites_omitted_email :
    wUser.email = some "a@b.c" ∧
    wDB.user_data.find? (fun d => d.firebase_uid == "u1") = some wUser ∧
    ∃ r db', create_or_update_user wDB wPayload ["Z"] = some (.ok r, db') ∧
      ∃ d', db'.user_data.find? (fun d => d.firebase_uid == "u1") = some d' ∧
        d'.email = none ∧ d'.email ≠ wUser.email :=
  ⟨rfl, rfl, _, _, rfl, applySet wUser wPayload, rfl, rfl, by decide⟩

/-- C3 amended: on an update, `$setOnInsert` preserves referral_code,
payment_status, referred_by and reference_code_used, while `$set` overwrites
every pydantic payload field with the new payload's value — including `null`
for fields the new payload omits. -/
theorem update_preserves_insert_fields_overwrites_payload (db : DB) (data : UserData)
    (codes : List String) (old : UserDoc)
    (hold : db.user_data.find? (fun d => d.firebase_uid == data.firebase_uid) = some old) :
    ∃ r db', create_or_update_user db data codes = some (.ok r, db') ∧
      ∃ d', db'.user_data.find? (fun d => d.firebase_uid == data.firebase_uid) = some d' ∧
        d'.referral_code = old.referral_code ∧
        d'.payment_status = old.payment_status ∧
        d'.referred_by = old.referred_by ∧
        d'.reference_code_used = old.reference_code_used ∧
        d'.firebase_uid = data.firebase_uid ∧
        d'.name = data.name ∧
        d'.email = data.email ∧
        d'.reference_code = data.reference_code ∧
        d'.sex = data.sex ∧
        d'.state = data.state ∧
        d'.district = data.district ∧
        d'.pin_code = data.pin_code ∧
        d'.bank_details = data.bank_details := by
  refine ⟨_, updatedUserDB db data, create_or_update_user_update_branch codes hold,
    applySet old data, ?_, rfl, rfl, rfl, rfl, rfl, rfl, rfl, rfl, rfl, rfl, rfl, rfl, rfl⟩
  exact find?_updateFirst_self hold (by simp [applySet])

/-- C3 amended witness: the concrete resubmission keeps the four
set-on-insert fields and overwrites the payload fields, wiping the email. -/
theorem update_preserves_insert_fields_overwrites_payload_witness :
    wDB.user_data.find? (fun d => d.firebase_uid == "u1") = some wUser ∧
    ∃ r db', create_or_update_user wDB wPayload ["Z"] = some (.ok r, db') ∧
      ∃ d', db'.user_data.find? (fun d => d.firebase_uid == "u1") = some d' ∧
        d'.referral_code = wUser.referral_code ∧
        d'.payment_status = wUser.payment_status ∧
        d'.referred_by = wUser.referred_by ∧
        d'.reference_code_used = wUser.reference_code_used ∧
        d'.firebase_uid = "u1" ∧
        d'.name = wPayload.name ∧
        d'.email = wPayload.email ∧
        d'.reference_code = wPayload.reference_code ∧
        d'.sex = wPayload.sex ∧
        d'.state = wPayload.state ∧
        d'.district = wPayload.district ∧
        d'.pin_code = wPayload.pin_code ∧
        d'.bank_details = wPayload.bank_details :=
  ⟨rfl, update_preserves_insert_fields_overwrites_payload wDB wPayload ["Z"] wUser rfl⟩

/-- C4: a first registration whose non-empty reference_code matches no
existing referral_code is rejected with HTTP 400 and the database is left
unchanged (the upsert is never reached). -/
theorem invalid_reference_code_rejected (db : DB) (data : UserData)
    (codes : List String) (rc : String)
    (hnew : db.user_data.find? (fun d => d.firebase_uid == data.firebase_uid) = none)
    (hrc : data.reference_code = some rc) (hne : rc ≠ "")
    (hno : ∀ d ∈ db.user_data, d.referral_code ≠ some rc)
    (hgen : (generate_unique_referral_code db.user_data codes).isSome) :
    create_or_update_user db data codes =
      some (.error ⟨400, "Invalid reference code"⟩, db) := by
  obtain ⟨c, hc⟩ := Option.isSome_iff_exists.mp hgen
  have hfind : db.user_data.find? (fun d => d.referral_code == some rc) = none :=
    List.find?_eq_none.mpr (fun d hd => by simpa using hno d hd)
  rw [create_or_update_user, hnew, hc, hrc]
  simp only [bne_iff_ne, ne_eq, hne, not_false_eq_true, if_true, hfind]

/-- C4 witness: registering uid "u9" with the unknown reference code "NOPE"
on the concrete database is rejected and changes nothing. -/
theorem invalid_reference_code_rejected_witness :
    (wDB.user_data.find? (fun d => d.firebase_uid == "u9") = none) ∧
    wBadPayload.reference_code = some "NOPE" ∧ "NOPE" ≠ "" ∧
    (∀ d ∈ wDB.user_data, d.referral_code ≠ some "NOPE") ∧
    (generate_unique_referral_code wDB.user_data ["FRESH"]).isSome = true ∧
    create_or_update_user wDB wBadPayload ["FRESH"] =
      some (.error ⟨400, "Invalid reference code"⟩, wDB) :=
  ⟨rfl, rfl, by decide, by decide, rfl,
   invalid_reference_code_rejected wDB wBadPayload ["FRESH"] "NOPE"
     rfl rfl (by decide) (by decide) rfl⟩

/-- C5: GET /team for a user with a (non-empty) referral code returns three
levels: level 1 is exactly the users whose reference_code equals the root's
referral code, level 2 exactly those whose reference_code is among the
referral codes of level-1 users, level 3 likewise over level 2 — and the
response carries no deeper level. -/
theorem get_team_levels (db : DB) (uid : String) (u : UserDoc) (root : String)
    (hu : db.user_data.find? (fun d => d.firebase_uid == uid) = some u)
    (hc : u.referral_code = some root) (hroot : root ≠ "") :
    ∃ t, get_team db uid = .ok t ∧
      t.level_1 = (db.user_data.filter (fun d => d.reference_code == some root)).map
        (fun d => ⟨d.name, d.referral_code⟩) ∧
      t.level_2 = (db.user_data.filter
          (fun d => (t.level_1.map (fun m => m.referral_code)).contains d.reference_code)).map
        (fun d => ⟨d.name, d.referral_code⟩) ∧
      t.level_3 = (db.user_data.filter
          (fun d => (t.level_2.map (fun m => m.referral_code)).contains d.reference_code)).map
        (fun d => ⟨d.name, d.referral_code⟩) := by
  simp only [get_team, hu, hc]
  rw [if_neg (by simp [hroot])]
  refine ⟨_, rfl, ?_, rfl, rfl⟩
  show find_users_by_referral db.user_data [some root] = _
  unfold find_users_by_referral
  congr 1
  apply List.filter_congr
  intro d _
  rw [List.contains_cons, List.contains_nil, Bool.or_false]

/-- C5 witness: on the concrete three-deep chain under "u1" the hypotheses
hold and each level is the corresponding filter of the collection. -/
theorem get_team_levels_witness :
    teamDB.user_data.find? (fun d => d.firebase_uid == "u1") = some wUser ∧
    wUser.referral_code = some "CODE1" ∧ "CODE1" ≠ "" ∧
    ∃ t, get_team teamDB "u1" = .ok t ∧
      t.level_1 = (teamDB.user_data.filter (fun d => d.reference_code == some "CODE1")).map
        (fun d => ⟨d.name, d.referral_code⟩) ∧
      t.level_2 = (teamDB.user_data.filter
          (fun d => (t.level_1.map (fun m => m.referral_code)).contains d.reference_code)).map
        (fun d => ⟨d.name, d.referral_code⟩) ∧
      t.level_3 = (teamDB.user_data.filter
          (fun d => (t.level_2.map (fun m => m.referral_code)).contains d.reference_code)).map
        (fun d => ⟨d.name, d.referral_code⟩) :=
  ⟨rfl, rfl, by decide,
   get_team_levels teamDB "u1" wUser "CODE1" rfl rfl (by decide)⟩

/-- C6: when no document's reference_code equals the queried user's referral
code, GET /team returns three empty levels. -/
theorem get_team_empty_when_no_referrals (db : DB) (uid : String) (u : UserDoc)
    (root : String)
    (hu : db.user_data.find? (fun d => d.firebase_uid == uid) = some u)
    (hc : u.referral_code = some root) (hroot : root ≠ "")
    (hno : ∀ d ∈ db.user_data, d.reference_code ≠ some root) :
    get_team db uid = .ok ⟨[], [], []⟩ := by
  simp only [get_team, hu, hc]
  rw [if_neg (by simp [hroot])]
  have h1 : find_users_by_referral db.user_data [some root] = [] := by
    unfold find_users_by_referral
    rw [List.filter_eq_nil_iff.mpr ?_, List.map_nil]
    intro d hd
    rw [List.contains_cons, List.contains_nil, Bool.or_false]
    simp [hno d hd]
  have hnil : find_users_by_referral db.user_data [] = [] := by
    simp [find_users_by_referral]
  simp only [h1, List.map_nil, hnil]

/-- C6 witness: on the concrete one-user database nobody references "CODE1",
and all three levels come back empty. -/
theorem get_team_empty_when_no_referrals_witness :
    wDB.user_data.find? (fun d => d.firebase_uid == "u1") = some wUser ∧
    wUser.referral_code = some "CODE1" ∧ "CODE1" ≠ "" ∧
    (∀ d ∈ wDB.user_data, d.reference_code ≠ some "CODE1") ∧
    get_team wDB "u1" = .ok ⟨[], [], []⟩ :=
  ⟨rfl, rfl, by decide, by decide,
   get_team_empty_when_no_referrals wDB "u1" wUser "CODE1" rfl rfl (by decide) (by decide)⟩

/-- Effect of POST /user_data on the stored referral codes: an update leaves
the code list unchanged; an insert appends the freshly generated code. -/
theorem create_or_update_user_referral_codes {db : DB} {data : UserData}
    {codes : List String} {res : Except HTTPException UserResp} {db' : DB}
    (h : create_or_update_user db data codes = some (res, db')) :
    db'.user_data.map (fun d => d.referral_code) =
      db.user_data.map (fun d => d.referral_code) ∨
    ∃ code, generate_unique_referral_code db.user_data codes = some code ∧
      db'.user_data.map (fun d => d.referral_code) =
        db.user_data.map (fun d => d.referral_code) ++ [some code] := by
  rw [create_or_update_user] at h
  cases hfind : db.user_data.find? (fun d => d.firebase_uid == data.firebase_uid) with
  | some old =>
      rw [hfind] at h
      simp only [Option.some.injEq, Prod.mk.injEq] at h
      obtain ⟨-, hdb⟩ := h
      subst hdb
      left
      exact @map_updateFirst_of_preserve UserDoc (Option String)
        (fun d => d.firebase_uid == data.firebase_uid)
        (fun d => applySet d data) (fun d => d.referral_code)
        (fun x => rfl) db.user_data
  | none =>
      rw [hfind] at h
      cases hgen : generate_unique_referral_code db.user_data codes with
      | none => rw [hgen] at h; simp at h
      | some code =>
          rw [hgen] at h
          cases hrc : data.reference_code with
          | none =>
              simp only [hrc, Option.some.injEq, Prod.mk.injEq] at h
              obtain ⟨-, hdb⟩ := h
              subst hdb
              right
              exact ⟨code, rfl, by simp [insertedDoc]⟩
          | some rc =>
              simp only [hrc] at h
              by_cases hne : (rc != "") = true
              · rw [if_pos hne] at h
                cases hfr : db.user_data.find? (fun d => d.referral_code == some rc) with
                | some referrer =>
                    rw [hfr] at h
                    simp only [Option.some.injEq, Prod.mk.injEq] at h
                    obtain ⟨-, hdb⟩ := h
                    subst hdb
                    right
                    exact ⟨code, rfl, by simp [insertedDoc]⟩
                | none =>
                    rw [hfr] at h
                    simp only [Option.some.injEq, Prod.mk.injEq] at h
                    obtain ⟨-, hdb⟩ := h
                    subst hdb
                    left
                    rfl
              · rw [if_neg hne] at h
                simp only [Option.some.injEq, Prod.mk.injEq] at h
                obtain ⟨-, hdb⟩ := h
                subst hdb
                right
                exact ⟨code, rfl, by simp [insertedDoc]⟩

/-- GET /payments never touches the user collection. -/
theorem get_or_create_payment_user_data (db : DB) (uid : String) (now : Nat) :
    (get_or_create_payment db uid now).2.user_data = db.user_data := by
  rw [get_or_create_payment]
  cases hp : db.user_payments.find? (fun q => q.firebase_uid == uid) with
  | some p => rfl
  | none =>
      cases hu : db.user_data.find? (fun d => d.firebase_uid == uid) with
      | none => rfl
      | some u => rfl

/-- POST /withdrawal_request never touches the user collection. -/
theorem raise_withdrawal_request_user_data (db : DB) (data : WithdrawalRequest)
    (now : Nat) :
    (raise_withdrawal_request db data now).2.user_data = db.user_data := by
  rw [raise_withdrawal_request]
  cases hu : db.user_data.find? (fun d => d.firebase_uid == data.firebase_uid) with
  | none => rfl
  | some u => rfl

/-- C1: in every state reachable from the empty collection by endpoint
operations, the referral codes of the user documents are pairwise distinct;
the code of a new user comes from `generate_unique_referral_code`, which
returns the first random candidate colliding with no stored document. -/
theorem referral_codes_pairwise_distinct {db : DB} (h : Reachable db) :
    (db.user_data.map (fun d => d.referral_code)).Pairwise (· ≠ ·) := by
  induction h with
  | init => simp [DB.empty]
  | step hr hstep ih =>
      cases hstep with
      | user data codes res heq =>
          rcases create_or_update_user_referral_codes heq with hsame | ⟨code, hgen, happ⟩
          · rw [hsame]; exact ih
          · rw [happ, List.pairwise_append]
            refine ⟨ih, by simp, ?_⟩
            intro a ha b hb
            simp only [List.mem_singleton] at hb
            subst hb
            obtain ⟨d, hd, rfl⟩ := List.mem_map.mp ha
            exact generate_fresh hgen d hd
      | payment uid now res heq =>
          rename_i db db'
          have h2 : (get_or_create_payment db uid now).2 = db' := by rw [heq]
          have h3 : db'.user_data = db.user_data := by
            rw [← h2, get_or_create_payment_user_data]
          rw [h3]; exact ih
      | withdrawal data now res heq =>
          rename_i db db'
          have h2 : (raise_withdrawal_request db data now).2 = db' := by rw [heq]
          have h3 : db'.user_data = db.user_data := by
            rw [← h2, raise_withdrawal_request_user_data]
          rw [h3]; exact ih

/-- C1 witness: the concrete one-user database is reachable (a single
registration with candidate stream ["CODE1"]), and its referral codes are
pairwise distinct. -/
theorem referral_codes_pairwise_distinct_witness :
    Reachable wDB ∧
    (wDB.user_data.map (fun d => d.referral_code)).Pairwise (· ≠ ·) :=
  have hr : Reachable wDB :=
    Reachable.step Reachable.init
      (@Step.user DB.empty wDB wregPayload ["CODE1"]
        (.ok ⟨"User created", some "CODE1", none, none⟩) rfl)
  ⟨hr, referral_codes_pairwise_distinct hr⟩
